import Mathlib

/-!
Verification of the Pilott date-calculator repository
(`src/constants.py`, `src/date_calc.py`, `src/xml_utils.py`, `src/app.py`).

Modelling conventions:

* A Python `datetime.date` is modelled by its proleptic-Gregorian ordinal
  (`date.toordinal()`), an `Int` (ordinal 1 is 0001-01-01; 3652059 is
  9999-12-31, Python's `date.max`).  `date` subtraction `(b - a).days` is
  then `b - a`, and `d + timedelta(days=k)` is `d + k`.
* Python `//` and `%` are floor division and floor modulus; they are
  modelled with `Int.fdiv` / `Int.fmod` (which agree with `/` = `Int.ediv`
  and `%` = `Int.emod` for the positive literal divisors used here).
* The calendar arithmetic (`_ymd2ord`, `_ord2ymd`, `_is_leap`,
  `_days_in_month`, `_days_before_month`, `_days_before_year`) is
  transcribed from CPython's `datetime.py`, which is the implementation
  `date.toordinal`, `date.fromordinal`, `strftime('%Y-%m-%d')` and
  `strptime(s, '%Y-%m-%d')` rest on.
-/

namespace Pilott

/-- Source `src/constants.py`: `MAX_FLEXIBILITY_DAYS = 10`. -/
def MAX_FLEXIBILITY_DAYS : Int := 10

/-- Source `src/constants.py`: `FLEXIBILITY_DIVISOR = 5`. -/
def FLEXIBILITY_DIVISOR : Int := 5

/-- CPython `datetime._is_leap(year)`:
`year % 4 == 0 and (year % 100 != 0 or year % 400 == 0)`
(Python `%` is floor modulus = `Int.fmod`). -/
def _is_leap (year : Int) : Bool :=
  year.fmod 4 == 0 && (year.fmod 100 != 0 || year.fmod 400 == 0)

/-- CPython `datetime._DAYS_IN_MONTH[month]` (index 0 holds the dummy -1). -/
def _DAYS_IN_MONTH (m : Int) : Int :=
  if m = 1 then 31 else if m = 2 then 28 else if m = 3 then 31
  else if m = 4 then 30 else if m = 5 then 31 else if m = 6 then 30
  else if m = 7 then 31 else if m = 8 then 31 else if m = 9 then 30
  else if m = 10 then 31 else if m = 11 then 30 else if m = 12 then 31
  else -1

/-- CPython `datetime._DAYS_BEFORE_MONTH[month]` (cumulative non-leap days;
index 0 holds the dummy -1). -/
def _DAYS_BEFORE_MONTH (m : Int) : Int :=
  if m = 1 then 0 else if m = 2 then 31 else if m = 3 then 59
  else if m = 4 then 90 else if m = 5 then 120 else if m = 6 then 151
  else if m = 7 then 181 else if m = 8 then 212 else if m = 9 then 243
  else if m = 10 then 273 else if m = 11 then 304 else if m = 12 then 334
  else -1

/-- CPython `datetime._days_in_month(year, month)`. -/
def _days_in_month (year month : Int) : Int :=
  if month = 2 && _is_leap year then 29 else _DAYS_IN_MONTH month

/-- CPython `datetime._days_before_month(year, month)`. -/
def _days_before_month (year month : Int) : Int :=
  _DAYS_BEFORE_MONTH month + (if 2 < month && _is_leap year then 1 else 0)

/-- CPython `datetime._days_before_year(year)`:
`y = year - 1; return y*365 + y//4 - y//100 + y//400`. -/
def _days_before_year (year : Int) : Int :=
  let y := year - 1
  y * 365 + y.fdiv 4 - y.fdiv 100 + y.fdiv 400

/-- CPython `datetime._ymd2ord(year, month, day)` — `date.toordinal()`. -/
def _ymd2ord (year month day : Int) : Int :=
  _days_before_year year + _days_before_month year month + day

/-- The month/day phase of CPython `datetime._ord2ymd`: from the leap flag
and the 0-based day-of-year `r`, `month = (n + 50) >> 5` (floor division by
32 on the non-negative day-of-year), then the one-step correction against
`_DAYS_BEFORE_MONTH`. -/
def _ord2ymd_month_day (leap : Bool) (r : Int) : Int × Int :=
  let month := (r + 50).fdiv 32
  let preceding := _DAYS_BEFORE_MONTH month + (if 2 < month && leap then 1 else 0)
  if r < preceding then
    let month' := month - 1
    let preceding' :=
      preceding - (_DAYS_IN_MONTH month' + (if month' = 2 && leap then 1 else 0))
    (month', r - preceding' + 1)
  else
    (month, r - preceding + 1)

/-- CPython `datetime._ord2ymd(n)` — `date.fromordinal(n)`.
`divmod` is (floor quotient, floor remainder); the month/day phase is
hoisted into `_ord2ymd_month_day`. -/
def _ord2ymd (n : Int) : Int × Int × Int :=
  let n0 := n - 1
  let n400 := n0.fdiv 146097
  let r400 := n0.fmod 146097
  let n100 := r400.fdiv 36524
  let r100 := r400.fmod 36524
  let n4 := r100.fdiv 1461
  let r4 := r100.fmod 1461
  let n1 := r4.fdiv 365
  let r1 := r4.fmod 365
  let year := n400 * 400 + 1 + n100 * 100 + n4 * 4 + n1
  if n1 = 4 ∨ n100 = 4 then
    (year - 1, 12, 31)
  else
    let leap := decide (n1 = 3 ∧ (n4 ≠ 24 ∨ n100 = 3))
    let md := _ord2ymd_month_day leap r1
    (year, md.1, md.2)

/-- Source `src/date_calc.py` `calc_flex_range(start, expected_end)`:
duration is `(expected_end - start).days + 1`; the flexibility-day count is
`min(MAX_FLEXIBILITY_DAYS, max(1, duration // FLEXIBILITY_DIVISOR))`
(Python `//` is floor division); the result is
`(expected_end - flex_days, expected_end + flex_days, flex_days)`.
Python `date ± timedelta` raises `OverflowError` when the result leaves the
representable range `[0001-01-01, 9999-12-31]` = ordinals `[1, 3652059]`;
the two guards model the raise at `expected_end - timedelta(days=flex_days)`
and then at `expected_end + timedelta(days=flex_days)`, with `none`
standing for the raised `OverflowError`. -/
def calc_flex_range (start expected_end : Int) : Option (Int × Int × Int) :=
  let duration := (expected_end - start) + 1
  let flex_days := min MAX_FLEXIBILITY_DAYS (max 1 (duration.fdiv FLEXIBILITY_DIVISOR))
  if 1 ≤ expected_end - flex_days ∧ expected_end - flex_days ≤ 3652059 then
    if 1 ≤ expected_end + flex_days ∧ expected_end + flex_days ≤ 3652059 then
      some (expected_end - flex_days, expected_end + flex_days, flex_days)
    else none
  else none

/-- Source `src/date_calc.py` `validate_actual_end_date(actual_end, flex_max)`. -/
def validate_actual_end_date (actual_end flex_max : Int) : Bool :=
  decide (actual_end ≤ flex_max)

/-- Source `src/date_calc.py` `calculate_duration(start_date, end_date)`. -/
def calculate_duration (start_date end_date : Int) : Int :=
  (end_date - start_date) + 1

section Bridges

theorem fdiv_eq_div (a : Int) (b : Int) (hb : 0 ≤ b) : a.fdiv b = a / b :=
  Int.fdiv_eq_ediv a hb

theorem fmod_eq_mod (a : Int) (b : Int) (hb : 0 ≤ b) : a.fmod b = a % b :=
  Int.fmod_eq_emod a hb

/-- Lemma: `_is_leap` as a proposition over floor-free modulus. -/
theorem is_leap_iff (y : Int) :
    _is_leap y = true ↔ (y % 4 = 0 ∧ (¬ y % 100 = 0 ∨ y % 400 = 0)) := by
  simp [_is_leap, fmod_eq_mod _ 4 (by norm_num), fmod_eq_mod _ 100 (by norm_num),
    fmod_eq_mod _ 400 (by norm_num)]

end Bridges

section CalendarCorrectness

/-- Correctness property of the month/day phase of `_ord2ymd`: the produced
month and day are in range for the leap flag, and the day-of-year identity
`days_before_month + day = r + 1` holds. -/
def msProp (L : Bool) (r : Int) : Prop :=
  let md := _ord2ymd_month_day L r
  1 ≤ md.1 ∧ md.1 ≤ 12 ∧ 1 ≤ md.2 ∧
  md.2 ≤ (if md.1 = 2 && L then 29 else _DAYS_IN_MONTH md.1) ∧
  _DAYS_BEFORE_MONTH md.1 + (if 2 < md.1 && L then 1 else 0) + md.2 = r + 1

instance (L : Bool) (r : Int) : Decidable (msProp L r) := by
  unfold msProp; infer_instance

set_option maxRecDepth 2000 in
theorem monthStageAux : ∀ rn : Nat, rn < 365 → ∀ L : Bool, msProp L (rn : Int) := by
  decide

theorem monthStage (L : Bool) (r : Int) (h0 : 0 ≤ r) (h1 : r < 365) : msProp L r := by
  obtain ⟨rn, rfl⟩ : ∃ rn : Nat, r = (rn : Int) := ⟨r.toNat, (Int.toNat_of_nonneg h0).symm⟩
  exact monthStageAux rn (by exact_mod_cast h1) L

/-- Round-trip correctness of CPython's ordinal/calendar conversion on the
Python `date` range `[1, 3652059]` (0001-01-01 .. 9999-12-31): `_ord2ymd`
yields an in-range year, a valid month and day, and `_ymd2ord` maps the
triple back to the ordinal. -/
theorem ord2ymd_correct (n : Int) (hn1 : 1 ≤ n) (hn2 : n ≤ 3652059) :
    1 ≤ (_ord2ymd n).1 ∧ (_ord2ymd n).1 ≤ 9999 ∧
    1 ≤ (_ord2ymd n).2.1 ∧ (_ord2ymd n).2.1 ≤ 12 ∧
    1 ≤ (_ord2ymd n).2.2 ∧
    (_ord2ymd n).2.2 ≤ _days_in_month (_ord2ymd n).1 (_ord2ymd n).2.1 ∧
    _ymd2ord (_ord2ymd n).1 (_ord2ymd n).2.1 (_ord2ymd n).2.2 = n := by
  simp only [_ord2ymd,
    fdiv_eq_div _ 146097 (by norm_num), fmod_eq_mod _ 146097 (by norm_num),
    fdiv_eq_div _ 36524 (by norm_num), fmod_eq_mod _ 36524 (by norm_num),
    fdiv_eq_div _ 1461 (by norm_num), fmod_eq_mod _ 1461 (by norm_num),
    fdiv_eq_div _ 365 (by norm_num), fmod_eq_mod _ 365 (by norm_num)]
  set n0 : Int := n - 1 with hn0
  set q400 : Int := n0 / 146097 with hq400
  set r400 : Int := n0 % 146097 with hr400
  set q100 : Int := r400 / 36524 with hq100
  set r100 : Int := r400 % 36524 with hr100
  set q4 : Int := r100 / 1461 with hq4
  set r4 : Int := r100 % 1461 with hr4
  set q1 : Int := r4 / 365 with hq1
  set r1 : Int := r4 % 365 with hr1
  clear_value n0 q400 r400 q100 r100 q4 r4 q1 r1
  split_ifs with hsp
  · -- special branch: December 31 of a leap year
    have hleap : _is_leap (q400 * 400 + 1 + q100 * 100 + q4 * 4 + q1 - 1) = true := by
      rw [is_leap_iff]; omega
    refine ⟨by omega, by omega, by norm_num, by norm_num, by norm_num, ?_, ?_⟩
    · simp [_days_in_month, _DAYS_IN_MONTH]
    · simp only [_ymd2ord, _days_before_month, _days_before_year, _DAYS_BEFORE_MONTH,
        hleap, fdiv_eq_div _ 4 (by norm_num), fdiv_eq_div _ 100 (by norm_num),
        fdiv_eq_div _ 400 (by norm_num)]
      norm_num
      rcases hsp with h4 | h4
      · have hb1 : 0 ≤ q4 ∧ q4 ≤ 23 ∧ 0 ≤ q100 ∧ q100 ≤ 3 ∧ 0 ≤ q400 := by omega
        have e1 : (q400 * 400 + 1 + q100 * 100 + q4 * 4 + q1 - 1 - 1) / 4
            = q400 * 100 + q100 * 25 + q4 := by omega
        have e2 : (q400 * 400 + 1 + q100 * 100 + q4 * 4 + q1 - 1 - 1) / 100
            = q400 * 4 + q100 := by omega
        have e3 : (q400 * 400 + 1 + q100 * 100 + q4 * 4 + q1 - 1 - 1) / 400 = q400 := by
          omega
        omega
      · have hb1 : r100 = 0 ∧ q4 = 0 ∧ q1 = 0 ∧ 0 ≤ q400 := by omega
        have e1 : (q400 * 400 + 1 + q100 * 100 + q4 * 4 + q1 - 1 - 1) / 4
            = q400 * 100 + 99 := by omega
        have e2 : (q400 * 400 + 1 + q100 * 100 + q4 * 4 + q1 - 1 - 1) / 100
            = q400 * 4 + 3 := by omega
        have e3 : (q400 * 400 + 1 + q100 * 100 + q4 * 4 + q1 - 1 - 1) / 400 = q400 := by
          omega
        omega
  · -- generic branch: apply the month/day stage
    have hms := monthStage (decide (q1 = 3 ∧ (q4 ≠ 24 ∨ q100 = 3))) r1 (by omega) (by omega)
    unfold msProp at hms
    set L : Bool := decide (q1 = 3 ∧ (q4 ≠ 24 ∨ q100 = 3)) with hL
    set md : Int × Int := _ord2ymd_month_day L r1 with hmd
    have hleap : _is_leap (q400 * 400 + 1 + q100 * 100 + q4 * 4 + q1) = L := by
      by_cases h : (q1 = 3 ∧ (q4 ≠ 24 ∨ q100 = 3))
      · rw [hL, decide_eq_true h]
        rw [is_leap_iff]; omega
      · rw [hL, decide_eq_false h]
        rw [Bool.eq_false_iff, Ne, is_leap_iff]; omega
    obtain ⟨hm1, hm2, hd1, hd2, hsum⟩ := hms
    refine ⟨by omega, by omega, hm1, hm2, hd1, ?_, ?_⟩
    · rw [_days_in_month, hleap]; exact hd2
    · rw [_ymd2ord, _days_before_month, hleap]
      simp only [_days_before_year,
        fdiv_eq_div _ 4 (by norm_num), fdiv_eq_div _ 100 (by norm_num),
        fdiv_eq_div _ 400 (by norm_num)]
      have hb1 : 0 ≤ q1 ∧ q1 ≤ 3 ∧ 0 ≤ q4 ∧ q4 ≤ 24 ∧ 0 ≤ q100 ∧ q100 ≤ 3 ∧ 0 ≤ q400 := by
        omega
      have e1 : (q400 * 400 + 1 + q100 * 100 + q4 * 4 + q1 - 1) / 4
          = q400 * 100 + q100 * 25 + q4 := by omega
      have e2 : (q400 * 400 + 1 + q100 * 100 + q4 * 4 + q1 - 1) / 100
          = q400 * 4 + q100 := by omega
      have e3 : (q400 * 400 + 1 + q100 * 100 + q4 * 4 + q1 - 1) / 400 = q400 := by omega
      cases hbit : (decide (2 < md.1) && L) <;>
        simp only [hbit, if_true, if_false, Bool.false_eq_true] at hsum ⊢ <;> omega

end CalendarCorrectness

section DateStrings

/-- Decimal digit character `chr(48 + k)` (for `0 ≤ k ≤ 9`). -/
def dc (k : Int) : Char := Char.ofNat (48 + k.toNat)

/-- Numeric value of an ASCII decimal digit character. -/
def cv (c : Char) : Int := (c.toNat : Int) - 48

/-- First code points of the Unicode 15.0 `Nd` (decimal number) blocks; each
block is the ten consecutive digits `base .. base+9` with values `0 .. 9`.
Python's `re` module matches `\d` (absent `re.ASCII`) against every `Nd`
character and `int()` accepts them, so `strptime`'s digit classes are not
ASCII-only. -/
def ND_ZERO_BASES : List Nat :=
  [0x30, 0x660, 0x6F0, 0x7C0, 0x966, 0x9E6, 0xA66, 0xAE6, 0xB66, 0xBE6,
   0xC66, 0xCE6, 0xD66, 0xDE6, 0xE50, 0xED0, 0xF20, 0x1040, 0x1090, 0x17E0,
   0x1810, 0x1946, 0x19D0, 0x1A80, 0x1A90, 0x1B50, 0x1BB0, 0x1C40, 0x1C50,
   0xA620, 0xA8D0, 0xA900, 0xA9D0, 0xA9F0, 0xAA50, 0xABF0, 0xFF10, 0x104A0,
   0x10D30, 0x11066, 0x110F0, 0x11136, 0x111D0, 0x112F0, 0x11450, 0x114D0,
   0x11650, 0x116C0, 0x11730, 0x118E0, 0x11950, 0x11C50, 0x11D50, 0x11DA0,
   0x11F50, 0x16A60, 0x16AC0, 0x16B50, 0x1D7CE, 0x1D7D8, 0x1D7E2, 0x1D7EC,
   0x1D7F6, 0x1E140, 0x1E2F0, 0x1E4F0, 0x1E950, 0x1FBF0]

/-- The `Nd` block (if any) a character's decimal-digit value is read from. -/
def pyDigitBase (c : Char) : Option Nat :=
  ND_ZERO_BASES.find? (fun b => b ≤ c.toNat && c.toNat < b + 10)

/-- Python's regex `\d` without `re.ASCII`: any Unicode decimal digit
(category `Nd`), not only ASCII `0-9`. -/
def isPyDigit (c : Char) : Bool := (pyDigitBase c).isSome

/-- The numeric value Python's `int()` assigns to a Unicode decimal digit. -/
def pyDigitVal (c : Char) : Int :=
  match pyDigitBase c with
  | some b => (c.toNat : Int) - (b : Int)
  | none => 0

/-- The year digits printed by `strftime('%Y')`.  The platform `%Y` used by
CPython's `date.strftime` prints the year unpadded, so years below 1000
yield fewer than four digits — unlike `date.isoformat()`. -/
def yearDigits (y : Int) : List Char :=
  if 1000 ≤ y then [dc (y / 1000), dc (y / 100 % 10), dc (y / 10 % 10), dc (y % 10)]
  else if 100 ≤ y then [dc (y / 100), dc (y / 10 % 10), dc (y % 10)]
  else if 10 ≤ y then [dc (y / 10), dc (y % 10)]
  else [dc y]

/-- Source `src/date_calc.py` `format_date(date_obj)`:
`date_obj.strftime('%Y-%m-%d')`.  `%m` and `%d` are zero-padded to two
digits; the platform `%Y` prints the year unpadded (see `yearDigits`). -/
def format_date (d : Int) : String :=
  let y := (_ord2ymd d).1
  let m := (_ord2ymd d).2.1
  let dd := (_ord2ymd d).2.2
  String.mk (yearDigits y ++
    ['-', dc (m / 10), dc (m % 10), '-', dc (dd / 10), dc (dd % 10)])

/-- Python `str(date)` = `date.isoformat()`: `YYYY-MM-DD` with the year
always zero-padded to four digits (pure-Python formatting, no platform
`strftime` involved). -/
def isoformat_date (d : Int) : String :=
  let y := (_ord2ymd d).1
  let m := (_ord2ymd d).2.1
  let dd := (_ord2ymd d).2.2
  String.mk [dc (y / 1000), dc (y / 100 % 10), dc (y / 10 % 10), dc (y % 10),
             '-', dc (m / 10), dc (m % 10), '-', dc (dd / 10), dc (dd % 10)]

/-- The `strptime` `%d` day pattern `3[01]|[12]\d|0[1-9]|[1-9]` (alternatives
in regex preference order; the `\d` is any Unicode decimal digit), required
to consume all remaining input (`strptime` raises on unconverted trailing
data). -/
def dayEnd (cs : List Char) : Option Int :=
  match cs with
  | [c] => if '1' ≤ c ∧ c ≤ '9' then some (cv c) else none
  | [c1, c2] =>
    if c1 = '3' then (if c2 = '0' ∨ c2 = '1' then some (30 + cv c2) else none)
    else if c1 = '1' ∨ c1 = '2' then
      (if isPyDigit c2 then some (10 * cv c1 + pyDigitVal c2) else none)
    else if c1 = '0' then (if '1' ≤ c2 ∧ c2 ≤ '9' then some (cv c2) else none)
    else none
  | _ => none

/-- The `strptime` `%m` month pattern `1[0-2]|0[1-9]|[1-9]`: candidate
(value, rest) pairs in regex preference order, for backtracking against the
rest of the pattern. -/
def monthCands (cs : List Char) : List (Int × List Char) :=
  match cs with
  | '1' :: c :: rest =>
    (if '0' ≤ c ∧ c ≤ '2' then [(10 + cv c, rest)] else []) ++ [(1, c :: rest)]
  | '0' :: c :: rest => if '1' ≤ c ∧ c ≤ '9' then [(cv c, rest)] else []
  | c :: rest => if '1' ≤ c ∧ c ≤ '9' then [(cv c, rest)] else []
  | [] => []

/-- Try the month candidates in preference order against the rest of the
`%Y-%m-%d` pattern: a literal `-` then the day pattern consuming the rest. -/
def tryMonthDay : List (Int × List Char) → Option (Int × Int)
  | [] => none
  | (m, rest) :: more =>
    match rest with
    | '-' :: rest2 =>
      match dayEnd rest2 with
      | some d => some (m, d)
      | none => tryMonthDay more
    | _ => tryMonthDay more

/-- Source `src/date_calc.py` `parse_date(date_str)`:
`datetime.strptime(date_str, '%Y-%m-%d').date()`.  `strptime` matches
`\d\d\d\d` for `%Y` (any Unicode decimal digits), a literal `-`, then the
month and day patterns with regex backtracking, and raises on leftover
input; `date(year, month, day)` then validates `MINYEAR <= year` and
`day <= _days_in_month(year, month)`.  A `ValueError` is modelled as
`none`. -/
def parse_date (s : String) : Option Int :=
  match s.data with
  | y1 :: y2 :: y3 :: y4 :: d1 :: rest =>
    if d1 = '-' ∧ isPyDigit y1 ∧ isPyDigit y2 ∧ isPyDigit y3 ∧ isPyDigit y4 then
      let y := 1000 * pyDigitVal y1 + 100 * pyDigitVal y2 +
        10 * pyDigitVal y3 + pyDigitVal y4
      match tryMonthDay (monthCands rest) with
      | some (m, d) =>
        if 1 ≤ y ∧ d ≤ _days_in_month y m then some (_ymd2ord y m d) else none
      | none => none
    else none
  | _ => none

theorem isPyDigit_dc (k : Int) (h0 : 0 ≤ k) (h9 : k ≤ 9) : isPyDigit (dc k) = true := by
  interval_cases k <;> decide

theorem pyDigitVal_dc (k : Int) (h0 : 0 ≤ k) (h9 : k ≤ 9) : pyDigitVal (dc k) = k := by
  interval_cases k <;> decide

theorem dayEnd_format (d : Int) (h1 : 1 ≤ d) (h31 : d ≤ 31) :
    dayEnd [dc (d / 10), dc (d % 10)] = some d := by
  interval_cases d <;> decide

set_option maxHeartbeats 2000000 in
set_option maxRecDepth 4000 in
theorem tryMonthDayAux : ∀ mn : Nat, mn < 12 → ∀ dn : Nat, dn < 31 →
    tryMonthDay (monthCands
      [dc (((mn : Int) + 1) / 10), dc (((mn : Int) + 1) % 10), '-',
       dc (((dn : Int) + 1) / 10), dc (((dn : Int) + 1) % 10)]) =
      some ((mn : Int) + 1, (dn : Int) + 1) := by
  decide

theorem tryMonthDay_format (m d : Int) (hm1 : 1 ≤ m) (hm12 : m ≤ 12)
    (hd1 : 1 ≤ d) (hd31 : d ≤ 31) :
    tryMonthDay (monthCands
      [dc (m / 10), dc (m % 10), '-', dc (d / 10), dc (d % 10)]) = some (m, d) := by
  obtain ⟨mn, rfl⟩ : ∃ mn : Nat, m = (mn : Int) + 1 := ⟨(m - 1).toNat, by omega⟩
  obtain ⟨dn, rfl⟩ : ∃ dn : Nat, d = (dn : Int) + 1 := ⟨(d - 1).toNat, by omega⟩
  exact tryMonthDayAux mn (by omega) dn (by omega)

theorem DIM_le (m : Int) : _DAYS_IN_MONTH m ≤ 31 := by
  by_cases h1 : m = 1
  · rw [h1]; decide
  by_cases h2 : m = 2
  · rw [h2]; decide
  by_cases h3 : m = 3
  · rw [h3]; decide
  by_cases h4 : m = 4
  · rw [h4]; decide
  by_cases h5 : m = 5
  · rw [h5]; decide
  by_cases h6 : m = 6
  · rw [h6]; decide
  by_cases h7 : m = 7
  · rw [h7]; decide
  by_cases h8 : m = 8
  · rw [h8]; decide
  by_cases h9 : m = 9
  · rw [h9]; decide
  by_cases h10 : m = 10
  · rw [h10]; decide
  by_cases h11 : m = 11
  · rw [h11]; decide
  by_cases h12 : m = 12
  · rw [h12]; decide
  unfold _DAYS_IN_MONTH
  rw [if_neg h1, if_neg h2, if_neg h3, if_neg h4, if_neg h5, if_neg h6, if_neg h7,
    if_neg h8, if_neg h9, if_neg h10, if_neg h11, if_neg h12]
  decide

theorem days_in_month_le (y m : Int) : _days_in_month y m ≤ 31 := by
  unfold _days_in_month
  cases h : (decide (m = 2) && _is_leap y)
  · rw [if_neg Bool.false_ne_true]; exact DIM_le m
  · rw [if_pos rfl]; decide

theorem DBM_le (m : Int) : _DAYS_BEFORE_MONTH m ≤ 334 := by
  by_cases h1 : m = 1
  · rw [h1]; decide
  by_cases h2 : m = 2
  · rw [h2]; decide
  by_cases h3 : m = 3
  · rw [h3]; decide
  by_cases h4 : m = 4
  · rw [h4]; decide
  by_cases h5 : m = 5
  · rw [h5]; decide
  by_cases h6 : m = 6
  · rw [h6]; decide
  by_cases h7 : m = 7
  · rw [h7]; decide
  by_cases h8 : m = 8
  · rw [h8]; decide
  by_cases h9 : m = 9
  · rw [h9]; decide
  by_cases h10 : m = 10
  · rw [h10]; decide
  by_cases h11 : m = 11
  · rw [h11]; decide
  by_cases h12 : m = 12
  · rw [h12]; decide
  unfold _DAYS_BEFORE_MONTH
  rw [if_neg h1, if_neg h2, if_neg h3, if_neg h4, if_neg h5, if_neg h6, if_neg h7,
    if_neg h8, if_neg h9, if_neg h10, if_neg h11, if_neg h12]
  decide

/-- Ordinals of dates whose year is below 1000 stay below
`364878 = _ymd2ord 1000 1 1`. -/
theorem ymd2ord_small_year (y m d : Int) (hy1 : 1 ≤ y) (hy : y ≤ 999) (hd : d ≤ 31) :
    _ymd2ord y m d ≤ 364877 := by
  have hDBM := DBM_le m
  simp only [_ymd2ord, _days_before_month, _days_before_year,
    fdiv_eq_div _ 4 (by norm_num), fdiv_eq_div _ 100 (by norm_num),
    fdiv_eq_div _ 400 (by norm_num)]
  cases hbit : (decide (2 < m) && _is_leap y)
  · rw [if_neg Bool.false_ne_true]
    omega
  · rw [if_pos rfl]
    have hand := hbit
    simp only [Bool.and_eq_true] at hand
    have hl := hand.2
    rw [is_leap_iff] at hl
    omega

theorem yearDigits_four (y : Int) (h : 1000 ≤ y) :
    yearDigits y = [dc (y / 1000), dc (y / 100 % 10), dc (y / 10 % 10), dc (y % 10)] := by
  unfold yearDigits
  rw [if_pos h]

/-- Definitional reduction of `parse_date` on an explicit ten-character-plus
list (the `%Y-` part destructured). -/
theorem parse_date_eq (y1 y2 y3 y4 d1 : Char) (rest : List Char) :
    parse_date (String.mk (y1 :: y2 :: y3 :: y4 :: d1 :: rest)) =
    (if d1 = '-' ∧ isPyDigit y1 ∧ isPyDigit y2 ∧ isPyDigit y3 ∧ isPyDigit y4 then
      match tryMonthDay (monthCands rest) with
      | some (m, d) =>
        if 1 ≤ (1000 * pyDigitVal y1 + 100 * pyDigitVal y2 +
              10 * pyDigitVal y3 + pyDigitVal y4) ∧
            d ≤ _days_in_month (1000 * pyDigitVal y1 + 100 * pyDigitVal y2 +
              10 * pyDigitVal y3 + pyDigitVal y4) m
        then some (_ymd2ord (1000 * pyDigitVal y1 + 100 * pyDigitVal y2 +
          10 * pyDigitVal y3 + pyDigitVal y4) m d)
        else none
      | none => none
    else none) := rfl

/-- Serialising an ordinal whose year is at least 1000 with `format_date`
and reading it back with `parse_date` recovers the ordinal
(`364878 = _ymd2ord 1000 1 1`; below it the platform `%Y` prints fewer than
four digits and `strptime` rejects the string). -/
theorem parse_format_roundtrip (n : Int) (h1 : 364878 ≤ n) (h2 : n ≤ 3652059) :
    parse_date (format_date n) = some n := by
  obtain ⟨hy1, hy2, hm1, hm2, hd1, hd2, hord⟩ := ord2ymd_correct n (by omega) h2
  set y : Int := (_ord2ymd n).1 with hy
  set m : Int := (_ord2ymd n).2.1 with hm
  set d : Int := (_ord2ymd n).2.2 with hd
  have hd31 : d ≤ 31 := le_trans hd2 (days_in_month_le y m)
  have hy1000 : 1000 ≤ y := by
    by_contra hcon
    have hsm := ymd2ord_small_year y m d hy1 (by omega) hd31
    rw [hord] at hsm
    omega
  simp only [format_date]
  rw [← hy, ← hm, ← hd]
  rw [yearDigits_four y hy1000]
  simp only [List.cons_append, List.nil_append]
  rw [parse_date_eq]
  rw [if_pos ⟨rfl, isPyDigit_dc _ (by omega) (by omega), isPyDigit_dc _ (by omega) (by omega),
    isPyDigit_dc _ (by omega) (by omega), isPyDigit_dc _ (by omega) (by omega)⟩]
  rw [pyDigitVal_dc _ (by omega) (by omega), pyDigitVal_dc _ (by omega) (by omega),
    pyDigitVal_dc _ (by omega) (by omega), pyDigitVal_dc _ (by omega) (by omega)]
  have hrec : 1000 * (y / 1000) + 100 * (y / 100 % 10) + 10 * (y / 10 % 10) + y % 10 = y := by
    omega
  rw [hrec, tryMonthDay_format m d hm1 hm2 hd1 hd31]
  show (if 1 ≤ y ∧ d ≤ _days_in_month y m then some (_ymd2ord y m d) else none) = some n
  rw [if_pos ⟨hy1, hd2⟩, hord]

theorem format_date_ne_empty (d : Int) : format_date d ≠ "" := by
  unfold format_date
  intro h
  have h2 := congrArg String.data h
  simp at h2

end DateStrings

section Coherence

/-- Source `src/constants.py` `ERROR_MESSAGES['invalid_actual_end']`. -/
def ERROR_invalid_actual_end : String :=
  "La date de fin réelle doit être <= à la date de flexibilité maximale"

/-- Source `src/date_calc.py` line 176: the start-after-expected-end message. -/
def MSG_start_after_expected : String :=
  "La date de début doit être antérieure à la date de fin prévue"

/-- Source `src/date_calc.py` line 188: the actual-end-before-start message. -/
def MSG_actual_before_start : String :=
  "La date de fin réelle ne peut pas être antérieure au début de mission"

/-- Source `src/date_calc.py` line 193: the f-string
`f"La date de souplesse doit être entre {flex_min} et {flex_max}"`
(`str(date)` is `date.isoformat()`, the always-four-digit-year ISO
rendering — not the platform `strftime`). -/
def MSG_flex_use_range (flex_min flex_max : Int) : String :=
  "La date de souplesse doit être entre " ++ isoformat_date flex_min ++
    " et " ++ isoformat_date flex_max

/-- Source `src/constants.py` `ERROR_MESSAGES['parsing_error']` (the Python code
appends `": " + str(e)` with the originating exception's text; the stable
prefix stands for the raised `ValueError`). -/
def ERROR_parsing : String := "Erreur lors de l\x27analyse du fichier XML"

/-- Source `src/date_calc.py` `validate_date_coherence(start_date,
expected_end_date, actual_end_date=None, flexibility_use_date=None)`.
`date` objects are always truthy, so Python's `if actual_end_date:` is a
presence test, modelled by `Option`.  The `calc_flex_range` call runs after
the first check; when it raises `OverflowError` (boundary dates) the
validator itself raises instead of returning a verdict — modelled by the
outer `Option` being `none`. -/
def validate_date_coherence (start_date expected_end_date : Int)
    (actual_end_date flexibility_use_date : Option Int) :
    Option (Bool × Option String) :=
  if start_date > expected_end_date then
    some (false, some MSG_start_after_expected)
  else
    match calc_flex_range start_date expected_end_date with
    | none => none
    | some fr =>
      let flex_min := fr.1
      let flex_max := fr.2.1
      some (match actual_end_date with
      | some actual_end =>
        if validate_actual_end_date actual_end flex_max = false then
          (false, some ERROR_invalid_actual_end)
        else if actual_end < start_date then
          (false, some MSG_actual_before_start)
        else
          match flexibility_use_date with
          | some u =>
            if u < flex_min ∨ u > flex_max then
              (false, some (MSG_flex_use_range flex_min flex_max))
            else (true, none)
          | none => (true, none)
      | none =>
        match flexibility_use_date with
        | some u =>
          if u < flex_min ∨ u > flex_max then
            (false, some (MSG_flex_use_range flex_min flex_max))
          else (true, none)
        | none => (true, none))

/-- The spec's description of `validateCoherence` (claim C3), transcribed
from its words at given flexibility bounds: ordered checks, first violation
reported, no aggregation.  The named errors map to the implementation's
messages:
`StartAfterExpectedEnd` ↦ `MSG_start_after_expected`,
`ActualEndBeyondFlexMax` ↦ `ERROR_invalid_actual_end`,
`ActualEndBeforeStart` ↦ `MSG_actual_before_start`,
`FlexUseDateOutOfRange` ↦ `MSG_flex_use_range`. -/
def spec_validate_coherence (start expected_end flex_min flex_max : Int)
    (actual_end flexibility_use_date : Option Int) : Bool × Option String :=
  if ¬ (start ≤ expected_end) then (false, some MSG_start_after_expected)
  else
    match actual_end with
    | some a =>
      if ¬ (a ≤ flex_max) then (false, some ERROR_invalid_actual_end)
      else if ¬ (start ≤ a) then (false, some MSG_actual_before_start)
      else
        match flexibility_use_date with
        | some u =>
          if ¬ (flex_min ≤ u ∧ u ≤ flex_max) then
            (false, some (MSG_flex_use_range flex_min flex_max))
          else (true, none)
        | none => (true, none)
    | none =>
      match flexibility_use_date with
      | some u =>
        if ¬ (flex_min ≤ u ∧ u ≤ flex_max) then
          (false, some (MSG_flex_use_range flex_min flex_max))
        else (true, none)
      | none => (true, none)

end Coherence

section Xml

mutual
/-- Model of an XML element (`xml.etree.ElementTree.Element`): a resolved
tag, optional text, and the child elements in document order (as a
specialised forest type so that recursion over the tree stays structural).
Attributes are not modelled (the code never reads them back).  Tags are
written in `prefix:Name` form: ElementTree resolves both Clark notation and
prefix-plus-namespace-map lookups to the same qualified name, so one
spelling serves for building and searching. -/
inductive XmlNode where
  | mk (tag : String) (text : Option String) (children : XmlForest)

/-- A list of sibling XML elements in document order. -/
inductive XmlForest where
  | nil
  | cons (hd : XmlNode) (tl : XmlForest)
end

def XmlNode.tag : XmlNode → String
  | .mk t _ _ => t

def XmlNode.text : XmlNode → Option String
  | .mk _ x _ => x

def XmlNode.children : XmlNode → XmlForest
  | .mk _ _ cs => cs

def XmlForest.ofList : List XmlNode → XmlForest
  | [] => .nil
  | c :: r => .cons c (XmlForest.ofList r)

/-- ElementTree `find('.//tag')` over a forest: the first element with the
tag among the forest's elements and their descendants, in document order
(an element precedes its own descendants). -/
def findDescForest (tag : String) : XmlForest → Option XmlNode
  | .nil => none
  | .cons (.mk t x cs) rest =>
    if t = tag then some (.mk t x cs)
    else
      match findDescForest tag cs with
      | some r => some r
      | none => findDescForest tag rest

/-- ElementTree `node.find('.//tag')`: first matching proper descendant. -/
def findDesc (tag : String) (n : XmlNode) : Option XmlNode :=
  findDescForest tag n.children

/-- First direct child with the given tag, in document order. -/
def findChildForest (tag : String) : XmlForest → Option XmlNode
  | .nil => none
  | .cons c rest => if c.tag = tag then some c else findChildForest tag rest

/-- ElementTree `node.find('tag')`: first matching direct child. -/
def findChild (tag : String) (n : XmlNode) : Option XmlNode :=
  findChildForest tag n.children

/-- Whether an element with the given tag occurs in the forest (roots or
any descendant). -/
def hasTagForest (tag : String) : XmlForest → Bool
  | .nil => false
  | .cons (.mk t _ cs) rest =>
    (t == tag) || hasTagForest tag cs || hasTagForest tag rest

/-- Whether an element with the given tag occurs strictly below `n`. -/
def hasDescTag (tag : String) (n : XmlNode) : Bool :=
  hasTagForest tag n.children

theorem findDescForest_eq_none (tag : String) :
    ∀ l, hasTagForest tag l = false → findDescForest tag l = none
  | .nil, _ => rfl
  | .cons (.mk t x cs) rest, h => by
    unfold hasTagForest at h
    simp only [Bool.or_eq_false_iff, beq_eq_false_iff_ne, Ne] at h
    obtain ⟨⟨ht, hcs⟩, hrest⟩ := h
    unfold findDescForest
    rw [if_neg ht, findDescForest_eq_none tag cs hcs,
      findDescForest_eq_none tag rest hrest]

/-- Source `src/xml_utils.py` `ContractData` (all fields default to empty/absent). -/
structure ContractData where
  assignment_id : String := ""
  staffing_supplier_id : String := ""
  start_date : Option Int := none
  expected_end_date : Option Int := none
  actual_end_date : Option Int := none
  flex_min_date : Option Int := none
  flex_max_date : Option Int := none
  flexibility_use_date : Option Int := none
  original_tree : Option XmlNode := none
  filename : String := ""

/-- The raw texts `parse_contract_xml` reads out of the document before any
date parsing. -/
structure RawTexts where
  assignment_id : String
  staffing_supplier_id : String
  start_text : Option String
  expected_end_text : Option String
  actual_end_text : Option String
  flex_min_text : Option String
  flex_max_text : Option String

/-- Text of a direct child with the given tag, when the child exists. -/
def childText (dr : XmlNode) (tag : String) : Option String :=
  (findChild tag dr).bind XmlNode.text

/-- The find/extract phase of `src/xml_utils.py` `parse_contract_xml`
(lines 72–110): identifiers via `.//hr:Assignment` then
`.//hr:AssignmentId` / `.//hr:StaffingSupplierId` (with `text or ""`), and
the five date texts as direct children of `.//hr:AssignmentDateRange`. -/
def extractTexts (root : XmlNode) : RawTexts :=
  let ids : String × String :=
    match findDesc "hr:Assignment" root with
    | some ae =>
      ( match findDesc "hr:AssignmentId" ae with
        | some e => e.text.getD ""
        | none => ""
      , match findDesc "hr:StaffingSupplierId" ae with
        | some e => e.text.getD ""
        | none => "" )
    | none => ("", "")
  match findDesc "hr:AssignmentDateRange" root with
  | some dr =>
    { assignment_id := ids.1, staffing_supplier_id := ids.2,
      start_text := childText dr "hr:StartDate",
      expected_end_text := childText dr "hr:ExpectedEndDate",
      actual_end_text := childText dr "hr:ActualEndDate",
      flex_min_text := childText dr "hr:FlexibilityMinDate",
      flex_max_text := childText dr "hr:FlexibilityMaxDate" }
  | none =>
    { assignment_id := ids.1, staffing_supplier_id := ids.2,
      start_text := none, expected_end_text := none, actual_end_text := none,
      flex_min_text := none, flex_max_text := none }

/-- One date field of `parse_contract_xml`: Python's
`if elem is not None and elem.text:` skips an absent element, absent text
and the empty string; otherwise `parse_date` runs and a `ValueError`
aborts the whole parse (caught and re-raised at lines 124–125). -/
def fieldFromText (t : Option String) : Except String (Option Int) :=
  match t with
  | none => .ok none
  | some s =>
    if s = "" then .ok none
    else
      match parse_date s with
      | some d => .ok (some d)
      | none => .error ERROR_parsing

/-- Lines 112–120 of `src/xml_utils.py` `parse_contract_xml`: when both
`start_date` and `expected_end_date` are set (`date` objects are truthy)
and at least one flexibility date is missing, both flexibility dates are
recomputed with `calc_flex_range`; otherwise the extracted values stand.
When the triggered recomputation itself raises `OverflowError` (boundary
dates), the surrounding `except Exception` at lines 124–125 turns it into
the parsing `ValueError` — modelled by the outer `Option` being `none`. -/
def recomputeFlex (sd ee fmn0 fmx0 : Option Int) :
    Option (Option Int × Option Int) :=
  match sd, ee with
  | some s, some e =>
    if fmn0.isNone ∨ fmx0.isNone then
      match calc_flex_range s e with
      | some fr => some (some fr.1, some fr.2.1)
      | none => none
    else some (fmn0, fmx0)
  | _, _ => some (fmn0, fmx0)

/-- Source `src/xml_utils.py` `parse_contract_xml(xml_content, filename)` (after
the ISO-8859-1 decode — which never fails, every byte being valid — and the
ElementTree parse, i.e. on a well-formed document).  Dates are parsed in
source order, then the flexibility dates pass through `recomputeFlex`; all
exceptions of the body (a date `ValueError`, the recomputation's
`OverflowError`) are re-raised as the parsing `ValueError`. -/
def parse_contract_xml (root : XmlNode) (filename : String := "") :
    Except String ContractData := do
  let t := extractTexts root
  let sd ← fieldFromText t.start_text
  let ee ← fieldFromText t.expected_end_text
  let ae ← fieldFromText t.actual_end_text
  let fmn0 ← fieldFromText t.flex_min_text
  let fmx0 ← fieldFromText t.flex_max_text
  match recomputeFlex sd ee fmn0 fmx0 with
  | none => .error ERROR_parsing
  | some flex =>
    .ok { assignment_id := t.assignment_id,
          staffing_supplier_id := t.staffing_supplier_id,
          start_date := sd, expected_end_date := ee, actual_end_date := ae,
          flex_min_date := flex.1, flex_max_date := flex.2,
          original_tree := some root, filename := filename }

/-- Source `src/xml_utils.py` `build_au_packet(contract)`.  The fresh
`uuid.uuid4()` and `datetime.utcnow()` header values are passed explicitly;
`format_date` on an absent date raises (`None` has no `strftime`), modelled
by `none`.  The element attributes (`processStatus`, `assignmentStatus`)
carry no parsed-back data and are not modelled on the node; the literal
`xmlns:<key>` root attributes set at lines 180–181 are modelled by
`build_au_root_literal_attrs` and consumed by the serialisation model
`write_then_parse`. -/
def build_au_packet (transact_id timestamp : String) (contract : ContractData) :
    Option XmlNode :=
  match contract.start_date, contract.expected_end_date,
      contract.flex_min_date, contract.flex_max_date with
  | some sd, some ee, some fmn, some fmx =>
    some (XmlNode.mk "hr:HRXMLRequest" none (.ofList
      [ XmlNode.mk "hr:Header" none (.ofList
          [ XmlNode.mk "hr:TransactId" (some transact_id) .nil
          , XmlNode.mk "hr:TimeStamp" (some timestamp) .nil ])
      , XmlNode.mk "hr:Body" none (.ofList
          [ XmlNode.mk "hr:Assignment" none (.ofList
              [ XmlNode.mk "hr:AssignmentId" (some contract.assignment_id) .nil
              , XmlNode.mk "hr:StaffingSupplierId" (some contract.staffing_supplier_id) .nil
              , XmlNode.mk "hr:AssignmentDateRange" none (.ofList
                  ([ XmlNode.mk "hr:StartDate" (some (format_date sd)) .nil
                   , XmlNode.mk "hr:ExpectedEndDate" (some (format_date ee)) .nil ]
                   ++ (match contract.actual_end_date with
                       | some a => [XmlNode.mk "hr:ActualEndDate" (some (format_date a)) .nil]
                       | none => [])
                   ++ [ XmlNode.mk "hr:FlexibilityMinDate" (some (format_date fmn)) .nil
                      , XmlNode.mk "hr:FlexibilityMaxDate" (some (format_date fmx)) .nil ])) ]) ]) ]))
  | _, _, _, _ => none

/-- The namespace qualifier of a tag written in `hr:Name` form (the tag
characters before the first `:`). -/
def tagNs (t : String) : String :=
  String.mk (t.data.takeWhile (fun c => c != ':'))

/-- The namespace qualifiers used by the elements of a forest and all their
descendants, in document order, with repetitions. -/
def usedNsForest : XmlForest → List String
  | .nil => []
  | .cons (.mk t _ cs) rest => tagNs t :: (usedNsForest cs ++ usedNsForest rest)

/-- The namespace qualifiers used by an element and its subtree. -/
def usedNs (n : XmlNode) : List String :=
  tagNs n.tag :: usedNsForest n.children

/-- Source `src/constants.py` `NAMESPACES` keys (the dict's insertion
order); every entry is passed to `ET.register_namespace` at module import
of both `src/app.py` and `src/xml_utils.py`. -/
def NAMESPACES_keys : List String := ["hr", "oa", "xsi"]

/-- Source `src/xml_utils.py` lines 180–181: `build_au_packet` sets a
literal `xmlns:<key>` attribute on the root for every `NAMESPACES` entry
(`root.set(f'xmlns:\x7bprefix\x7d', uri)`). -/
def build_au_root_literal_attrs : List String :=
  NAMESPACES_keys.map (fun p => "xmlns:" ++ p)

/-- Writing a tree with `ET.tostring` and reading the bytes back with
`ET.fromstring`.  Because the tree's namespaces are registered with
`ET.register_namespace`, the serialiser emits one `xmlns:<key>` declaration
on the root element for each namespace used in the tree, and then writes
the root's own literal attributes.  When the combined attribute list
repeats a name, the serialised bytes are not well-formed XML and the
re-read raises `xml.etree.ElementTree.ParseError` — in `process_xml_file`
that lands in the parse error handler, modelled as the parsing error.
Otherwise the re-read recovers the tree and `parse_contract_xml` runs on
it. -/
def write_then_parse (literalRootAttrs : List String) (tree : XmlNode)
    (filename : String) : Except String ContractData :=
  if (((usedNs tree).dedup.map (fun p => "xmlns:" ++ p)) ++
      literalRootAttrs).Nodup then
    parse_contract_xml tree filename
  else .error ERROR_parsing

/-- Lemma: any tree rooted in the `hr` namespace serialises with a
generated `xmlns:hr` declaration that collides with `build_au_packet`'s
literal `xmlns:hr` root attribute, so the write-then-parse round trip ends
in the parsing error. -/
theorem write_then_parse_hr (tree : XmlNode) (fn : String)
    (h : tagNs tree.tag = "hr") :
    write_then_parse build_au_root_literal_attrs tree fn = .error ERROR_parsing := by
  have h0 : "hr" ∈ usedNs tree := by
    rw [← h]
    exact List.mem_cons_self _ _
  have h1 : "xmlns:hr" ∈ (usedNs tree).dedup.map (fun p => "xmlns:" ++ p) :=
    List.mem_map.mpr ⟨"hr", List.mem_dedup.mpr h0, rfl⟩
  have h2 : "xmlns:hr" ∈ build_au_root_literal_attrs := by decide
  have h3 : ¬ (((usedNs tree).dedup.map (fun p => "xmlns:" ++ p)) ++
      build_au_root_literal_attrs).Nodup := by
    rw [List.nodup_append]
    rintro ⟨-, -, hd⟩
    exact hd h1 h2
  unfold write_then_parse
  rw [if_neg h3]

/-- An optional element: present with the given text, or absent. -/
def optElem (tag : String) (ot : Option String) : List XmlNode :=
  match ot with
  | some t => [XmlNode.mk tag (some t) .nil]
  | none => []

/-- A canonical single-assignment input document: an `hr:Assignment`
carrying the identifiers, and an `hr:AssignmentDateRange` carrying the date
fields (each field's element present exactly when its text is given). -/
def mkContractDoc (aid sid sd ee ae fmn fmx : Option String) : XmlNode :=
  XmlNode.mk "hr:Root" none (.ofList
    [ XmlNode.mk "hr:Assignment" none
        (.ofList (optElem "hr:AssignmentId" aid ++ optElem "hr:StaffingSupplierId" sid))
    , XmlNode.mk "hr:AssignmentDateRange" none
        (.ofList (optElem "hr:StartDate" sd ++ optElem "hr:ExpectedEndDate" ee ++
         optElem "hr:ActualEndDate" ae ++ optElem "hr:FlexibilityMinDate" fmn ++
         optElem "hr:FlexibilityMaxDate" fmx)) ])

/-- A document holding two assignment sub-records in document order. -/
def mkTwoAssignmentDoc (id1 id2 : String) : XmlNode :=
  XmlNode.mk "hr:Root" none (.ofList
    [ XmlNode.mk "hr:Assignment" none
        (.ofList [XmlNode.mk "hr:AssignmentId" (some id1) .nil])
    , XmlNode.mk "hr:Assignment" none
        (.ofList [XmlNode.mk "hr:AssignmentId" (some id2) .nil]) ])

/-- Match a literal character sequence as a prefix, returning the rest. -/
def matchLit : List Char → List Char → Option (List Char)
  | [], cs => some cs
  | _ :: _, [] => none
  | l :: ls, c :: cs => if c = l then matchLit ls cs else none

/-- Source `src/app.py` `validate_filename(filename)`:
`bool(re.match(INPUT_FILE_PATTERN, filename))` with
`INPUT_FILE_PATTERN = r'ASS_\d+_A_ETT\.xml'`.  `re.match` anchors at the
start only; the greedy `\d+` (any Unicode decimal digits, `re.ASCII` not
being set) is followed by the non-digit `_`, so it never backtracks and
matching is literal-lead, digits, literal-rest — with any trailing
characters accepted. -/
def validate_filename (filename : String) : Bool :=
  match matchLit "ASS_".data filename.data with
  | none => false
  | some r =>
    decide (r.takeWhile isPyDigit ≠ []) &&
      (matchLit "_A_ETT.xml".data (r.dropWhile isPyDigit)).isSome

/-- Exceptions the `xmlschema` library can raise: `XMLSchemaException`
subclasses, or anything else. -/
inductive PyExc where
  | schemaExc (msg : String)
  | otherExc (msg : String)

/-- Source `src/constants.py` `ERROR_MESSAGES['validation_error']`. -/
def ERROR_validation : String := "Le fichier XML ne respecte pas le schéma XSD"

/-- Source `src/xml_utils.py` `validate_xml_schema(xml_path, xsd_name)`.  The
filesystem probe `xsd_path.exists()` and the combined effect of
`xmlschema.XMLSchema(str(xsd_path))` plus `schema.validate(xml_path)` are
passed in explicitly: `xsd_exists` says whether the schema resource is
present; `validation` is the outcome of the validator when it runs. -/
def validate_xml_schema (xsd_exists : Bool) (validation : Except PyExc Unit) :
    Bool × Option String :=
  if xsd_exists = false then (true, none)
  else
    match validation with
    | .ok _ => (true, none)
    | .error (.schemaExc m) => (false, some (ERROR_validation ++ ": " ++ m))
    | .error (.otherExc m) => (false, some ("Erreur de validation: " ++ m))

theorem fieldFromText_ok (s : String) (v : Int) (h : parse_date s = some v) :
    fieldFromText (some s) = .ok (some v) := by
  have hne : s ≠ "" := by
    intro hh
    rw [hh, show parse_date "" = none from rfl] at h
    exact Option.noConfusion h
  show (if s = "" then Except.ok none
    else match parse_date s with
      | some d => Except.ok (some d)
      | none => Except.error ERROR_parsing) = Except.ok (some v)
  rw [if_neg hne, h]

theorem fieldFromText_fail (s : String) (hne : s ≠ "") (h : parse_date s = none) :
    fieldFromText (some s) = .error ERROR_parsing := by
  show (if s = "" then Except.ok none
    else match parse_date s with
      | some d => Except.ok (some d)
      | none => Except.error ERROR_parsing) = Except.error ERROR_parsing
  rw [if_neg hne, h]

theorem fieldFromText_cases (t : Option String) :
    fieldFromText t = .error ERROR_parsing ∨ ∃ v, fieldFromText t = .ok v := by
  rcases t with _ | s
  · exact Or.inr ⟨none, rfl⟩
  · by_cases he : s = ""
    · refine Or.inr ⟨none, ?_⟩
      show (if s = "" then Except.ok none
        else match parse_date s with
          | some d => Except.ok (some d)
          | none => Except.error ERROR_parsing) = Except.ok none
      rw [if_pos he]
    · rcases hp : parse_date s with _ | d
      · exact Or.inl (fieldFromText_fail s he hp)
      · exact Or.inr ⟨some d, fieldFromText_ok s d hp⟩

theorem extract_mkContractDoc (aid sid sd ee ae fmn fmx : Option String) :
    extractTexts (mkContractDoc aid sid sd ee ae fmn fmx) =
      { assignment_id := aid.getD "", staffing_supplier_id := sid.getD "",
        start_text := sd, expected_end_text := ee, actual_end_text := ae,
        flex_min_text := fmn, flex_max_text := fmx } := by
  rcases aid with _ | aid <;> rcases sid with _ | sid <;> rcases sd with _ | sd <;>
    rcases ee with _ | ee <;> rcases ae with _ | ae <;> rcases fmn with _ | fmn <;>
    rcases fmx with _ | fmx <;> rfl

theorem except_bind_ok {α β : Type} (a : α) (f : α → Except String β) :
    (Except.ok a : Except String α) >>= f = f a := rfl

/-- Lemma: both flexibility fields present — the extracted values stand. -/
theorem recomputeFlex_keep (s e v1 v2 : Int) :
    recomputeFlex (some s) (some e) (some v1) (some v2) = some (some v1, some v2) := rfl

/-- Lemma: a flexibility field missing and the recomputation in range. -/
theorem recomputeFlex_missing (s e : Int) (fmn0 fmx0 : Option Int)
    (h : fmn0.isNone ∨ fmx0.isNone) (fr : Int × Int × Int)
    (hfr : calc_flex_range s e = some fr) :
    recomputeFlex (some s) (some e) fmn0 fmx0 = some (some fr.1, some fr.2.1) := by
  show (if fmn0.isNone ∨ fmx0.isNone then
      match calc_flex_range s e with
      | some fr2 => some (some fr2.1, some fr2.2.1)
      | none => none
    else some (fmn0, fmx0)) = some (some fr.1, some fr.2.1)
  rw [if_pos h]
  simp only [hfr]

/-- Lemma: a flexibility field missing and the recomputation overflowing. -/
theorem recomputeFlex_overflow (s e : Int) (fmn0 fmx0 : Option Int)
    (h : fmn0.isNone ∨ fmx0.isNone) (hfr : calc_flex_range s e = none) :
    recomputeFlex (some s) (some e) fmn0 fmx0 = none := by
  show (if fmn0.isNone ∨ fmx0.isNone then
      match calc_flex_range s e with
      | some fr2 => some (some fr2.1, some fr2.2.1)
      | none => none
    else some (fmn0, fmx0)) = none
  rw [if_pos h]
  simp only [hfr]

/-- Evaluation of `parse_contract_xml` once the extracted texts, the
field-level parses and the flexibility recomputation are known. -/
theorem parse_contract_texts (root : XmlNode) (fn : String) (aid sid : String)
    (sdt eet aet fmnt fmxt : Option String)
    (hext : extractTexts root = ⟨aid, sid, sdt, eet, aet, fmnt, fmxt⟩)
    (sd ee ae fmn0 fmx0 : Option Int) (flex : Option Int × Option Int)
    (hsd : fieldFromText sdt = .ok sd) (hee : fieldFromText eet = .ok ee)
    (hae : fieldFromText aet = .ok ae) (hmn : fieldFromText fmnt = .ok fmn0)
    (hmx : fieldFromText fmxt = .ok fmx0)
    (hflex : recomputeFlex sd ee fmn0 fmx0 = some flex) :
    parse_contract_xml root fn =
      .ok { assignment_id := aid, staffing_supplier_id := sid,
            start_date := sd, expected_end_date := ee, actual_end_date := ae,
            flex_min_date := flex.1, flex_max_date := flex.2,
            original_tree := some root, filename := fn } := by
  unfold parse_contract_xml
  rw [hext]
  dsimp only
  rw [hsd, hee, hae, hmn, hmx]
  rw [except_bind_ok, except_bind_ok, except_bind_ok, except_bind_ok, except_bind_ok]
  simp only [hflex]

/-- Evaluation of `parse_contract_xml` when the flexibility recomputation
overflows: the whole parse fails with the parsing error. -/
theorem parse_contract_texts_overflow (root : XmlNode) (fn : String)
    (aid sid : String) (sdt eet aet fmnt fmxt : Option String)
    (hext : extractTexts root = ⟨aid, sid, sdt, eet, aet, fmnt, fmxt⟩)
    (sd ee ae fmn0 fmx0 : Option Int)
    (hsd : fieldFromText sdt = .ok sd) (hee : fieldFromText eet = .ok ee)
    (hae : fieldFromText aet = .ok ae) (hmn : fieldFromText fmnt = .ok fmn0)
    (hmx : fieldFromText fmxt = .ok fmx0)
    (hflex : recomputeFlex sd ee fmn0 fmx0 = none) :
    parse_contract_xml root fn = .error ERROR_parsing := by
  unfold parse_contract_xml
  rw [hext]
  dsimp only
  rw [hsd, hee, hae, hmn, hmx]
  rw [except_bind_ok, except_bind_ok, except_bind_ok, except_bind_ok, except_bind_ok]
  simp only [hflex]

end Xml

example : calc_flex_range 0 9 = some (7, 11, 2) := by decide

section Claims

theorem flex_days_lb (s e : Int) : 1 ≤ min 10 (max 1 ((e - s + 1) / 5)) :=
  le_min (by norm_num) (le_max_left 1 _)

theorem flex_days_ub (s e : Int) : min 10 (max 1 ((e - s + 1) / 5)) ≤ 10 :=
  min_le_left _ _

/-- Helper: `calc_flex_range` with Python's floor division re-expressed as
`/` (= `Int.ediv`, which agrees with floor division for the positive
divisor 5) and the two `OverflowError` guards merged into one condition
(the flexibility count being at least 1, the lower bound of
`expected_end + flex_days` and the upper bound of
`expected_end - flex_days` follow from the other two). -/
theorem calc_flex_range_eq (s e : Int) :
    calc_flex_range s e =
      (if 1 ≤ e - min 10 (max 1 ((e - s + 1) / 5)) ∧
          e + min 10 (max 1 ((e - s + 1) / 5)) ≤ 3652059 then
        some (e - min 10 (max 1 ((e - s + 1) / 5)),
          e + min 10 (max 1 ((e - s + 1) / 5)), min 10 (max 1 ((e - s + 1) / 5)))
      else none) := by
  have hk1 := flex_days_lb s e
  simp only [calc_flex_range, MAX_FLEXIBILITY_DAYS, FLEXIBILITY_DIVISOR]
  rw [fdiv_eq_div _ 5 (by norm_num)]
  set K := min 10 (max 1 ((e - s + 1) / 5)) with hK
  clear_value K
  split_ifs <;> first | rfl | omega

/-- C1 counterexample: at `start = expectedEnd = 9999-12-31` (ordinal
3652059, an in-range input satisfying the claimed precondition
`start ≤ expectedEnd`), `calc_flex_range` returns no triple at all:
`expected_end + timedelta(days=flex_days)` passes `date.max` and raises
`OverflowError`, so the unconditional formula claim fails. -/
theorem claim_C1_counterexample :
    (3652059 : Int) ≤ 3652059 ∧ _ymd2ord 9999 12 31 = 3652059 ∧
    calc_flex_range 3652059 3652059 = none :=
  ⟨by decide, by decide, by decide⟩

/-- C1 (amended): for `start ≤ expectedEnd`, when both flexibility bounds
stay inside Python's representable date range (no `OverflowError`),
`calc_flex_range` returns
`flexDays = min(10, max(1, ((expectedEnd − start).days + 1) // 5))`,
`flexMin = expectedEnd − flexDays`, `flexMax = expectedEnd + flexDays`;
hence `flexDays ∈ [1, 10]` and `flexMin ≤ expectedEnd ≤ flexMax`; and the
function is pure and deterministic (equal inputs give equal results). -/
theorem claim_C1 (s e : Int) (h : s ≤ e)
    (hlo : 1 ≤ e - min 10 (max 1 ((e - s + 1) / 5)))
    (hhi : e + min 10 (max 1 ((e - s + 1) / 5)) ≤ 3652059) :
    calc_flex_range s e =
      some (e - min 10 (max 1 ((e - s + 1) / 5)),
        e + min 10 (max 1 ((e - s + 1) / 5)), min 10 (max 1 ((e - s + 1) / 5))) ∧
    1 ≤ min 10 (max 1 ((e - s + 1) / 5)) ∧ min 10 (max 1 ((e - s + 1) / 5)) ≤ 10 ∧
    e - min 10 (max 1 ((e - s + 1) / 5)) ≤ e ∧
    e ≤ e + min 10 (max 1 ((e - s + 1) / 5)) ∧
    (∀ s2 e2 : Int, s2 = s → e2 = e → calc_flex_range s2 e2 = calc_flex_range s e) := by
  have hk1 := flex_days_lb s e
  have hk2 := flex_days_ub s e
  refine ⟨?_, hk1, hk2, by omega, by omega, ?_⟩
  · rw [calc_flex_range_eq, if_pos ⟨hlo, hhi⟩]
  · intro s2 e2 hs2 he2
    rw [hs2, he2]

theorem claim_C1_witness :
    ((100 : Int) ≤ 109 ∧ (1 : Int) ≤ 109 - min 10 (max 1 ((109 - 100 + 1) / 5)) ∧
      (109 : Int) + min 10 (max 1 ((109 - 100 + 1) / 5)) ≤ 3652059) ∧
    (calc_flex_range 100 109 =
      some (109 - min 10 (max 1 ((109 - 100 + 1) / 5)),
        109 + min 10 (max 1 ((109 - 100 + 1) / 5)),
        min 10 (max 1 ((109 - 100 + 1) / 5))) ∧
    (1 : Int) ≤ min 10 (max 1 ((109 - 100 + 1) / 5)) ∧
    min 10 (max 1 (((109 : Int) - 100 + 1) / 5)) ≤ 10 ∧
    (109 : Int) - min 10 (max 1 ((109 - 100 + 1) / 5)) ≤ 109 ∧
    (109 : Int) ≤ 109 + min 10 (max 1 ((109 - 100 + 1) / 5)) ∧
    (∀ s2 e2 : Int, s2 = 100 → e2 = 109 →
      calc_flex_range s2 e2 = calc_flex_range 100 109)) :=
  ⟨⟨by decide, by decide, by decide⟩,
    claim_C1 100 109 (by decide) (by decide) (by decide)⟩

/-- C9 counterexample: the arithmetic does NOT always terminate normally —
`calc_flex_range` raises `OverflowError` (returns no value) at
`start = expectedEnd = 9999-12-31` (flexMax would pass `date.max`) and at
`start = expectedEnd = 0001-01-01` (flexMin would pass `date.min`). -/
theorem claim_C9_counterexample :
    calc_flex_range 3652059 3652059 = none ∧ calc_flex_range 1 1 = none ∧
    _ymd2ord 9999 12 31 = 3652059 ∧ _ymd2ord 1 1 1 = 1 :=
  ⟨by decide, by decide, by decide, by decide⟩

/-- C9 (amended): for every pair of ordinals (start after expectedEnd
included), whenever `calc_flex_range` returns a triple it satisfies
`flexDays ∈ [1, 10]`, `flexMin = expectedEnd − flexDays`,
`flexMax = expectedEnd + flexDays`, so `flexMax − flexMin = 2·flexDays` and
`flexMin ≤ flexMax`; and it raises `OverflowError` (returns nothing)
exactly when a flexibility bound leaves the representable range
`[1, 3652059]`. -/
theorem claim_C9 (s e : Int) :
    (∀ fmin fmax k : Int, calc_flex_range s e = some (fmin, fmax, k) →
      1 ≤ k ∧ k ≤ 10 ∧ fmin = e - k ∧ fmax = e + k ∧
      fmax - fmin = 2 * k ∧ fmin ≤ fmax) ∧
    (calc_flex_range s e = none ↔
      ¬ (1 ≤ e - min 10 (max 1 ((e - s + 1) / 5)) ∧
         e + min 10 (max 1 ((e - s + 1) / 5)) ≤ 3652059)) := by
  have hk1 := flex_days_lb s e
  have hk2 := flex_days_ub s e
  rw [calc_flex_range_eq]
  constructor
  · intro fmin fmax k hk
    split_ifs at hk with hc
    simp only [Option.some_inj, Prod.mk.injEq] at hk
    obtain ⟨e1, e2, e3⟩ := hk
    refine ⟨by omega, by omega, by omega, by omega, by omega, by omega⟩
  · split_ifs with hc
    · simp [hc]
    · simp [hc]

/-- C8: `validate_xml_schema` succeeds whenever no schema resource exists,
and reports a failure exactly when the schema file is present and the
validator raises on the document. -/
theorem claim_C8 :
    (∀ v : Except PyExc Unit, validate_xml_schema false v = (true, none)) ∧
    (∀ (xe : Bool) (v : Except PyExc Unit),
      (validate_xml_schema xe v).1 = false ↔ (xe = true ∧ ∃ exc, v = .error exc)) := by
  constructor
  · intro v; rfl
  · intro xe v
    cases xe
    · simp [validate_xml_schema]
    · rcases v with exc | u
      · rcases exc with m | m <;> simp [validate_xml_schema]
      · simp [validate_xml_schema]

/-- C10: on a well-formed document containing no `Assignment` element and
no `AssignmentDateRange` element, `parse_contract_xml` succeeds and returns
a record with empty identifiers and all dates absent (missing elements are
never an error at the read boundary; the ISO-8859-1 decode itself never
fails, every byte being valid). -/
theorem claim_C10 (doc : XmlNode) (fn : String)
    (h1 : hasDescTag "hr:Assignment" doc = false)
    (h2 : hasDescTag "hr:AssignmentDateRange" doc = false) :
    parse_contract_xml doc fn =
      .ok { assignment_id := "", staffing_supplier_id := "",
            start_date := none, expected_end_date := none, actual_end_date := none,
            flex_min_date := none, flex_max_date := none,
            original_tree := some doc, filename := fn } := by
  have e1 : findDesc "hr:Assignment" doc = none := findDescForest_eq_none _ _ h1
  have e2 : findDesc "hr:AssignmentDateRange" doc = none := findDescForest_eq_none _ _ h2
  simp [parse_contract_xml, extractTexts, e1, e2, fieldFromText, recomputeFlex]
  rfl

theorem claim_C10_witness :
    hasDescTag "hr:Assignment" (XmlNode.mk "hr:Root" none .nil) = false ∧
    hasDescTag "hr:AssignmentDateRange" (XmlNode.mk "hr:Root" none .nil) = false ∧
    parse_contract_xml (XmlNode.mk "hr:Root" none .nil) "f" =
      .ok { assignment_id := "", staffing_supplier_id := "",
            start_date := none, expected_end_date := none, actual_end_date := none,
            flex_min_date := none, flex_max_date := none,
            original_tree := some (XmlNode.mk "hr:Root" none .nil), filename := "f" } :=
  ⟨rfl, rfl, claim_C10 (XmlNode.mk "hr:Root" none .nil) "f" rfl rfl⟩

/-- C5 counterexample: a document with two assignment sub-elements does not
yield two records — the parser returns a single record, built from the
first `Assignment` only (`find('.//hr:Assignment')` stops at the first
match), and the second identifier is lost. -/
theorem claim_C5_counterexample :
    (parse_contract_xml (mkTwoAssignmentDoc "A1" "A2") "").toOption.map
      ContractData.assignment_id = some "A1" ∧ "A1" ≠ "A2" := by
  constructor
  · rfl
  · decide

/-- C5 amended: for a document carrying two assignment sub-records, the
reader returns exactly one `ContractData`, built from the first assignment
element in document order. -/
theorem claim_C5_amended (id1 id2 : String) :
    parse_contract_xml (mkTwoAssignmentDoc id1 id2) "" =
      .ok { assignment_id := id1, staffing_supplier_id := "",
            start_date := none, expected_end_date := none, actual_end_date := none,
            flex_min_date := none, flex_max_date := none,
            original_tree := some (mkTwoAssignmentDoc id1 id2), filename := "" } := rfl

/-- C3 counterexample: at `start = expectedEnd = 9999-12-31` (in-range
inputs whose first check passes), the validator returns no verdict at all —
the internal `calc_flex_range` call raises `OverflowError` — so it does not
always return the first violation or success. -/
theorem claim_C3_counterexample :
    validate_date_coherence 3652059 3652059 none none = none ∧
    _ymd2ord 9999 12 31 = 3652059 :=
  ⟨by decide, by decide⟩

/-- C3 (amended): when start > expectedEnd the validator returns the
`StartAfterExpectedEnd` violation before computing anything else; otherwise,
whenever the internal `calc_flex_range` call returns bounds (no
`OverflowError`), `validate_date_coherence` checks, in order, a present
actualEnd against `actualEnd ≤ flexMax` (else `ActualEndBeyondFlexMax`) and
`actualEnd ≥ start` (else `ActualEndBeforeStart`), then a present
flexUseDate against `flexMin ≤ flexUseDate ≤ flexMax` (else
`FlexUseDateOutOfRange`); it returns the first violation (it equals the
spec's ordered-check function at those bounds) and succeeds exactly when no
constraint is violated.  When the internal computation raises (boundary
dates) and the first check passes, the validator raises instead of
returning a verdict. -/
theorem claim_C3 (s e : Int) (a f : Option Int) :
    (e < s → validate_date_coherence s e a f =
      some (false, some MSG_start_after_expected)) ∧
    (∀ fmin fmax k : Int, calc_flex_range s e = some (fmin, fmax, k) →
      validate_date_coherence s e a f =
        some (spec_validate_coherence s e fmin fmax a f) ∧
      (validate_date_coherence s e a f = some (true, none) ↔
        (s ≤ e ∧ (∀ x ∈ a, x ≤ fmax ∧ s ≤ x) ∧
         (∀ u ∈ f, fmin ≤ u ∧ u ≤ fmax)))) ∧
    (¬ e < s → calc_flex_range s e = none →
      validate_date_coherence s e a f = none) := by
  refine ⟨?_, ?_, ?_⟩
  · intro hlt
    unfold validate_date_coherence
    rw [if_pos hlt]
  · intro fmin fmax k hfr
    constructor
    · unfold validate_date_coherence spec_validate_coherence validate_actual_end_date
      rw [hfr]
      rcases a with _ | x <;> rcases f with _ | u <;>
        simp only [gt_iff_lt, not_le, decide_eq_false_iff_not, not_and_or, not_lt] <;>
        split_ifs <;> first | rfl | omega
    · unfold validate_date_coherence validate_actual_end_date
      rw [hfr]
      rcases a with _ | x <;> rcases f with _ | u <;>
        simp only [gt_iff_lt, decide_eq_false_iff_not, not_le, Option.mem_def,
          Option.some.injEq, forall_eq] <;>
        split_ifs <;>
        simp_all <;> omega
  · intro hnlt hnone
    unfold validate_date_coherence
    rw [if_neg hnlt, hnone]

/-- The C2 counterexample document: start and expected-end resolvable, and
both flexibility fields present, carrying values different from the freshly
computed ones (flex of 2024-01-01..2024-01-10 would be 2024-01-08 and
2024-01-12). -/
def c2cexDoc : XmlNode :=
  mkContractDoc (some "A1") (some "S1") (some "2024-01-01") (some "2024-01-10")
    none (some "2023-12-01") (some "2025-01-01")

/-- C2 counterexample: on a document whose startDate and expectedEndDate
are both resolvable and which carries its own flexibility fields, the
returned record keeps the input flexibility dates, which differ from the
values `calc_flex_range` computes from that start and expected end — the
input flex dates are taken as the field of record, refuting the claim. -/
theorem claim_C2_counterexample :
    (parse_contract_xml c2cexDoc "").toOption.map
        (fun c => (c.flex_min_date, c.flex_max_date))
      = some (some (_ymd2ord 2023 12 1), some (_ymd2ord 2025 1 1)) ∧
    (parse_contract_xml c2cexDoc "").toOption.map ContractData.start_date
      = some (some (_ymd2ord 2024 1 1)) ∧
    (parse_contract_xml c2cexDoc "").toOption.map ContractData.expected_end_date
      = some (some (_ymd2ord 2024 1 10)) ∧
    calc_flex_range (_ymd2ord 2024 1 1) (_ymd2ord 2024 1 10)
      = some (_ymd2ord 2024 1 8, _ymd2ord 2024 1 12, 2) ∧
    some (_ymd2ord 2023 12 1) ≠ some (_ymd2ord 2024 1 8 : Int) ∧
    some (_ymd2ord 2025 1 1) ≠ some (_ymd2ord 2024 1 12 : Int) := by
  refine ⟨by decide, by decide, by decide, by decide, by decide, by decide⟩

/-- C2 (amended): if startDate and expectedEndDate are both resolvable, the
reader recomputes the flexibility dates via `calc_flex_range` exactly when
at least one of the two input flexibility fields is absent (either one, or
both); when the source document carries both, the input values are kept as
the field of record.  When the triggered recomputation raises
`OverflowError` (boundary dates), the whole parse fails with the parsing
error. -/
theorem claim_C2_amended (aid sid sdt eet fmnt fmxt : String) (vs ve v1 v2 : Int)
    (hs : parse_date sdt = some vs) (he : parse_date eet = some ve)
    (h1 : parse_date fmnt = some v1) (h2 : parse_date fmxt = some v2) :
    (parse_contract_xml (mkContractDoc (some aid) (some sid) (some sdt) (some eet)
        none (some fmnt) (some fmxt)) "").toOption.map
      (fun c => (c.flex_min_date, c.flex_max_date)) = some (some v1, some v2) ∧
    (∀ fmin fmax kk : Int, calc_flex_range vs ve = some (fmin, fmax, kk) →
      (parse_contract_xml (mkContractDoc (some aid) (some sid) (some sdt) (some eet)
          none none none) "").toOption.map
        (fun c => (c.flex_min_date, c.flex_max_date)) = some (some fmin, some fmax) ∧
      (parse_contract_xml (mkContractDoc (some aid) (some sid) (some sdt) (some eet)
          none (some fmnt) none) "").toOption.map
        (fun c => (c.flex_min_date, c.flex_max_date)) = some (some fmin, some fmax) ∧
      (parse_contract_xml (mkContractDoc (some aid) (some sid) (some sdt) (some eet)
          none none (some fmxt)) "").toOption.map
        (fun c => (c.flex_min_date, c.flex_max_date)) = some (some fmin, some fmax)) ∧
    (calc_flex_range vs ve = none →
      parse_contract_xml (mkContractDoc (some aid) (some sid) (some sdt) (some eet)
        none none none) "" = .error ERROR_parsing ∧
      parse_contract_xml (mkContractDoc (some aid) (some sid) (some sdt) (some eet)
        none (some fmnt) none) "" = .error ERROR_parsing ∧
      parse_contract_xml (mkContractDoc (some aid) (some sid) (some sdt) (some eet)
        none none (some fmxt)) "" = .error ERROR_parsing) := by
  have hx1 : extractTexts (mkContractDoc (some aid) (some sid) (some sdt) (some eet)
      none (some fmnt) (some fmxt)) =
      { assignment_id := aid, staffing_supplier_id := sid, start_text := some sdt,
        expected_end_text := some eet, actual_end_text := none,
        flex_min_text := some fmnt, flex_max_text := some fmxt } :=
    extract_mkContractDoc (some aid) (some sid) (some sdt) (some eet) none
      (some fmnt) (some fmxt)
  have hx2 : extractTexts (mkContractDoc (some aid) (some sid) (some sdt) (some eet)
      none none none) =
      { assignment_id := aid, staffing_supplier_id := sid, start_text := some sdt,
        expected_end_text := some eet, actual_end_text := none,
        flex_min_text := none, flex_max_text := none } :=
    extract_mkContractDoc (some aid) (some sid) (some sdt) (some eet) none none none
  have hx3 : extractTexts (mkContractDoc (some aid) (some sid) (some sdt) (some eet)
      none (some fmnt) none) =
      { assignment_id := aid, staffing_supplier_id := sid, start_text := some sdt,
        expected_end_text := some eet, actual_end_text := none,
        flex_min_text := some fmnt, flex_max_text := none } :=
    extract_mkContractDoc (some aid) (some sid) (some sdt) (some eet) none (some fmnt) none
  have hx4 : extractTexts (mkContractDoc (some aid) (some sid) (some sdt) (some eet)
      none none (some fmxt)) =
      { assignment_id := aid, staffing_supplier_id := sid, start_text := some sdt,
        expected_end_text := some eet, actual_end_text := none,
        flex_min_text := none, flex_max_text := some fmxt } :=
    extract_mkContractDoc (some aid) (some sid) (some sdt) (some eet) none none (some fmxt)
  refine ⟨?_, ?_, ?_⟩
  · rw [parse_contract_texts _ "" aid sid (some sdt) (some eet) none (some fmnt) (some fmxt)
      hx1 (some vs) (some ve) none (some v1) (some v2) (some v1, some v2)
      (fieldFromText_ok _ _ hs) (fieldFromText_ok _ _ he) rfl
      (fieldFromText_ok _ _ h1) (fieldFromText_ok _ _ h2)
      (recomputeFlex_keep vs ve v1 v2)] <;> rfl
  · intro fmin fmax kk hfr
    refine ⟨?_, ?_, ?_⟩
    · rw [parse_contract_texts _ "" aid sid (some sdt) (some eet) none none none
        hx2 (some vs) (some ve) none none none (some fmin, some fmax)
        (fieldFromText_ok _ _ hs) (fieldFromText_ok _ _ he) rfl rfl rfl
        (recomputeFlex_missing vs ve none none (Or.inl rfl) (fmin, fmax, kk) hfr)] <;> rfl
    · rw [parse_contract_texts _ "" aid sid (some sdt) (some eet) none (some fmnt) none
        hx3 (some vs) (some ve) none (some v1) none (some fmin, some fmax)
        (fieldFromText_ok _ _ hs) (fieldFromText_ok _ _ he) rfl
        (fieldFromText_ok _ _ h1) rfl
        (recomputeFlex_missing vs ve (some v1) none (Or.inr rfl) (fmin, fmax, kk) hfr)] <;> rfl
    · rw [parse_contract_texts _ "" aid sid (some sdt) (some eet) none none (some fmxt)
        hx4 (some vs) (some ve) none none (some v2) (some fmin, some fmax)
        (fieldFromText_ok _ _ hs) (fieldFromText_ok _ _ he) rfl rfl
        (fieldFromText_ok _ _ h2)
        (recomputeFlex_missing vs ve none (some v2) (Or.inl rfl) (fmin, fmax, kk) hfr)] <;> rfl
  · intro hfr
    refine ⟨?_, ?_, ?_⟩
    · exact parse_contract_texts_overflow _ "" aid sid (some sdt) (some eet) none none none
        hx2 (some vs) (some ve) none none none
        (fieldFromText_ok _ _ hs) (fieldFromText_ok _ _ he) rfl rfl rfl
        (recomputeFlex_overflow vs ve none none (Or.inl rfl) hfr)
    · exact parse_contract_texts_overflow _ "" aid sid (some sdt) (some eet) none
        (some fmnt) none hx3 (some vs) (some ve) none (some v1) none
        (fieldFromText_ok _ _ hs) (fieldFromText_ok _ _ he) rfl
        (fieldFromText_ok _ _ h1) rfl
        (recomputeFlex_overflow vs ve (some v1) none (Or.inr rfl) hfr)
    · exact parse_contract_texts_overflow _ "" aid sid (some sdt) (some eet) none none
        (some fmxt) hx4 (some vs) (some ve) none none (some v2)
        (fieldFromText_ok _ _ hs) (fieldFromText_ok _ _ he) rfl rfl
        (fieldFromText_ok _ _ h2)
        (recomputeFlex_overflow vs ve none (some v2) (Or.inl rfl) hfr)

theorem claim_C2_amended_witness :
    (parse_date "2024-01-01" = some (_ymd2ord 2024 1 1) ∧
     parse_date "2024-01-10" = some (_ymd2ord 2024 1 10) ∧
     parse_date "2023-12-01" = some (_ymd2ord 2023 12 1) ∧
     parse_date "2025-01-01" = some (_ymd2ord 2025 1 1)) ∧
    ((parse_contract_xml (mkContractDoc (some "A1") (some "S1") (some "2024-01-01")
        (some "2024-01-10") none (some "2023-12-01") (some "2025-01-01")) "").toOption.map
      (fun c => (c.flex_min_date, c.flex_max_date))
      = some (some (_ymd2ord 2023 12 1), some (_ymd2ord 2025 1 1)) ∧
    (∀ fmin fmax kk : Int,
      calc_flex_range (_ymd2ord 2024 1 1) (_ymd2ord 2024 1 10) = some (fmin, fmax, kk) →
      (parse_contract_xml (mkContractDoc (some "A1") (some "S1") (some "2024-01-01")
          (some "2024-01-10") none none none) "").toOption.map
        (fun c => (c.flex_min_date, c.flex_max_date)) = some (some fmin, some fmax) ∧
      (parse_contract_xml (mkContractDoc (some "A1") (some "S1") (some "2024-01-01")
          (some "2024-01-10") none (some "2023-12-01") none) "").toOption.map
        (fun c => (c.flex_min_date, c.flex_max_date)) = some (some fmin, some fmax) ∧
      (parse_contract_xml (mkContractDoc (some "A1") (some "S1") (some "2024-01-01")
          (some "2024-01-10") none none (some "2025-01-01")) "").toOption.map
        (fun c => (c.flex_min_date, c.flex_max_date)) = some (some fmin, some fmax)) ∧
    (calc_flex_range (_ymd2ord 2024 1 1) (_ymd2ord 2024 1 10) = none →
      parse_contract_xml (mkContractDoc (some "A1") (some "S1") (some "2024-01-01")
        (some "2024-01-10") none none none) "" = .error ERROR_parsing ∧
      parse_contract_xml (mkContractDoc (some "A1") (some "S1") (some "2024-01-01")
        (some "2024-01-10") none (some "2023-12-01") none) "" = .error ERROR_parsing ∧
      parse_contract_xml (mkContractDoc (some "A1") (some "S1") (some "2024-01-01")
        (some "2024-01-10") none none (some "2025-01-01")) "" = .error ERROR_parsing)) :=
  ⟨⟨by decide, by decide, by decide, by decide⟩,
    claim_C2_amended "A1" "S1" "2024-01-01" "2024-01-10" "2023-12-01" "2025-01-01"
      (_ymd2ord 2024 1 1) (_ymd2ord 2024 1 10) (_ymd2ord 2023 12 1) (_ymd2ord 2025 1 1)
      (by decide) (by decide) (by decide) (by decide)⟩

/-- The C4 counterexample document: well-formed, one malformed date text. -/
def c4cexDoc : XmlNode :=
  mkContractDoc (some "A1") (some "S1") (some "oops") (some "2024-01-10") none none none

/-- C4 counterexample: a malformed individual date field inside an
otherwise well-formed document does not degrade to absent — the reader
aborts the whole parse with the parsing `ValueError` and returns no
record. -/
theorem claim_C4_counterexample :
    parse_contract_xml c4cexDoc "" = .error ERROR_parsing := by rfl

/-- C4 amended: an individual date field whose text is present, non-empty
and not parseable as `YYYY-MM-DD` makes `parse_contract_xml` raise the
parsing `ValueError` (the whole parse aborts; the field is not degraded to
absent and no record is returned). -/
theorem claim_C4_amended (aid sid : String) (sdt eet aet fmnt fmxt : Option String)
    (h : (∃ s, sdt = some s ∧ s ≠ "" ∧ parse_date s = none) ∨
         (∃ s, eet = some s ∧ s ≠ "" ∧ parse_date s = none) ∨
         (∃ s, aet = some s ∧ s ≠ "" ∧ parse_date s = none) ∨
         (∃ s, fmnt = some s ∧ s ≠ "" ∧ parse_date s = none) ∨
         (∃ s, fmxt = some s ∧ s ≠ "" ∧ parse_date s = none)) :
    parse_contract_xml (mkContractDoc (some aid) (some sid) sdt eet aet fmnt fmxt) ""
      = .error ERROR_parsing := by
  have hext := extract_mkContractDoc (some aid) (some sid) sdt eet aet fmnt fmxt
  unfold parse_contract_xml
  rw [hext]
  dsimp only
  rcases h with ⟨s0, rfl, hne, hpd⟩ | ⟨s0, rfl, hne, hpd⟩ | ⟨s0, rfl, hne, hpd⟩ |
    ⟨s0, rfl, hne, hpd⟩ | ⟨s0, rfl, hne, hpd⟩
  · rw [fieldFromText_fail s0 hne hpd]
    rfl
  · rw [fieldFromText_fail s0 hne hpd]
    rcases fieldFromText_cases sdt with hc1 | ⟨v1, hc1⟩ <;> rw [hc1] <;> rfl
  · rw [fieldFromText_fail s0 hne hpd]
    rcases fieldFromText_cases sdt with hc1 | ⟨v1, hc1⟩ <;> rw [hc1] <;>
      rcases fieldFromText_cases eet with hc2 | ⟨v2, hc2⟩ <;> rw [hc2] <;> rfl
  · rw [fieldFromText_fail s0 hne hpd]
    rcases fieldFromText_cases sdt with hc1 | ⟨v1, hc1⟩ <;> rw [hc1] <;>
      rcases fieldFromText_cases eet with hc2 | ⟨v2, hc2⟩ <;> rw [hc2] <;>
      rcases fieldFromText_cases aet with hc3 | ⟨v3, hc3⟩ <;> rw [hc3] <;> rfl
  · rw [fieldFromText_fail s0 hne hpd]
    rcases fieldFromText_cases sdt with hc1 | ⟨v1, hc1⟩ <;> rw [hc1] <;>
      rcases fieldFromText_cases eet with hc2 | ⟨v2, hc2⟩ <;> rw [hc2] <;>
      rcases fieldFromText_cases aet with hc3 | ⟨v3, hc3⟩ <;> rw [hc3] <;>
      rcases fieldFromText_cases fmnt with hc4 | ⟨v4, hc4⟩ <;> rw [hc4] <;> rfl

theorem claim_C4_amended_witness :
    ((∃ s, (some "oops" : Option String) = some s ∧ s ≠ "" ∧ parse_date s = none) ∨
     (∃ s, (none : Option String) = some s ∧ s ≠ "" ∧ parse_date s = none) ∨
     (∃ s, (none : Option String) = some s ∧ s ≠ "" ∧ parse_date s = none) ∨
     (∃ s, (none : Option String) = some s ∧ s ≠ "" ∧ parse_date s = none) ∨
     (∃ s, (none : Option String) = some s ∧ s ≠ "" ∧ parse_date s = none)) ∧
    parse_contract_xml (mkContractDoc (some "A1") (some "S1") (some "oops")
      none none none none) "" = .error ERROR_parsing :=
  ⟨Or.inl ⟨"oops", rfl, by decide, by decide⟩,
    claim_C4_amended "A1" "S1" (some "oops") none none none none
      (Or.inl ⟨"oops", rfl, by decide, by decide⟩)⟩

theorem matchLit_iff : ∀ (p cs r : List Char), matchLit p cs = some r ↔ cs = p ++ r
  | [], cs, r => by simp [matchLit]
  | l :: ls, [], r => by simp [matchLit]
  | l :: ls, c :: cs, r => by
    unfold matchLit
    by_cases hc : c = l
    · rw [if_pos hc]
      simp [hc, matchLit_iff ls cs r]
    · rw [if_neg hc]
      simp [hc]

theorem mem_takeWhile_digit (p : Char → Bool) :
    ∀ (l : List Char) (x : Char), x ∈ l.takeWhile p → p x = true
  | [], x, hx => absurd hx (by simp)
  | c :: l, x, hx => by
    rw [List.takeWhile_cons] at hx
    by_cases hc : p c
    · rw [if_pos hc] at hx
      rcases List.mem_cons.mp hx with rfl | hx2
      · exact hc
      · exact mem_takeWhile_digit p l x hx2
    · rw [if_neg hc] at hx
      exact absurd hx (by simp)

theorem takeWhile_append_not (p : Char → Bool) (c : Char) (t : List Char)
    (hc : p c = false) :
    ∀ ds, (∀ x ∈ ds, p x = true) →
      (ds ++ c :: t).takeWhile p = ds ∧ (ds ++ c :: t).dropWhile p = c :: t
  | [], _ => by simp [List.takeWhile_cons, List.dropWhile_cons, hc]
  | d :: ds, h => by
    have hd : p d = true := h d (by simp)
    have ih := takeWhile_append_not p c t hc ds (fun x hx => h x (by simp [hx]))
    simp [List.takeWhile_cons, List.dropWhile_cons, hd, ih.1, ih.2]

/-- C6 counterexample: the filename validator accepts
`ASS_12345_A_ETT.xml.bak` — extra trailing characters are not rejected
(`re.match` has no end anchor), refuting the exact-match claim. -/
theorem claim_C6_counterexample :
    validate_filename "ASS_12345_A_ETT.xml.bak" = true := by decide

/-- C6 amended: the validator returns true exactly for strings that START
with `ASS_`, one or more Unicode decimal digits (Python's `\d` without
`re.ASCII` covers every `Nd` character), then `_A_ETT.xml` (case-sensitive,
no leading path segments, arbitrary trailing characters allowed); in
particular `ASS_12345_A_ETT.xml` and the fullwidth-digit name
`ASS_５_A_ETT.xml` are accepted while `ass_12345_a_ett.xml` and
`ASS_12345_AU_ETT.xml` are rejected. -/
theorem claim_C6_amended :
    (∀ s : String, validate_filename s = true ↔
      ∃ ds rest : List Char, s.data = "ASS_".data ++ ds ++ "_A_ETT.xml".data ++ rest ∧
        ds ≠ [] ∧ ∀ c ∈ ds, isPyDigit c = true) ∧
    validate_filename "ASS_12345_A_ETT.xml" = true ∧
    validate_filename "ASS_５_A_ETT.xml" = true ∧
    validate_filename "ass_12345_a_ett.xml" = false ∧
    validate_filename "ASS_12345_AU_ETT.xml" = false := by
  refine ⟨?_, by decide, by decide, by decide, by decide⟩
  intro s
  constructor
  · intro hv
    unfold validate_filename at hv
    rcases hm : matchLit "ASS_".data s.data with _ | r
    · rw [hm] at hv; exact absurd hv (by simp)
    · rw [hm] at hv
      simp only [Bool.and_eq_true, decide_eq_true_eq, Option.isSome_iff_exists] at hv
      obtain ⟨hne, rest, hrest⟩ := hv
      refine ⟨r.takeWhile isPyDigit, rest, ?_, hne, ?_⟩
      · have h1 : s.data = "ASS_".data ++ r := (matchLit_iff _ _ _).mp hm
        have h2 : r.dropWhile isPyDigit = "_A_ETT.xml".data ++ rest :=
          (matchLit_iff _ _ _).mp hrest
        have h3 : r = r.takeWhile isPyDigit ++ ("_A_ETT.xml".data ++ rest) := by
          conv_lhs => rw [← List.takeWhile_append_dropWhile (p := isPyDigit) (l := r)]
          rw [h2]
        rw [h1]
        conv_lhs => rw [h3]
        simp
      · exact fun c hc => mem_takeWhile_digit isPyDigit r c hc
  · rintro ⟨ds, rest, hdata, hne, hdig⟩
    unfold validate_filename
    have hm : matchLit "ASS_".data s.data = some (ds ++ "_A_ETT.xml".data ++ rest) := by
      rw [matchLit_iff, hdata]
      simp
    simp only [hm]
    have hsh : ds ++ "_A_ETT.xml".data ++ rest
        = ds ++ '_' :: ("A_ETT.xml".data ++ rest) := by
      rw [show "_A_ETT.xml".data = '_' :: "A_ETT.xml".data from rfl]
      simp
    have htw := takeWhile_append_not isPyDigit '_' ("A_ETT.xml".data ++ rest)
      (by decide) ds hdig
    rw [hsh, htw.1, htw.2]
    have hml : matchLit "_A_ETT.xml".data ('_' :: ("A_ETT.xml".data ++ rest))
        = some rest := by
      rw [matchLit_iff]
      rw [show "_A_ETT.xml".data = '_' :: "A_ETT.xml".data from rfl]
      simp
    rw [hml]
    simp [hne]

/-- The C7 counterexample record: well-formed, `start ≤ expectedEnd`, and
the stored flexibility dates are exactly the computed ones — the
friendliest possible input for the round-trip claim. -/
def c7cexContract : ContractData :=
  { assignment_id := "A1", staffing_supplier_id := "S1",
    start_date := some (_ymd2ord 2024 1 1), expected_end_date := some (_ymd2ord 2024 1 10),
    flex_min_date := some (_ymd2ord 2024 1 8), flex_max_date := some (_ymd2ord 2024 1 12) }

set_option maxHeartbeats 4000000 in
/-- C7 counterexample: even for a record whose stored flexibility dates are
exactly the computed ones, writing the generated packet and reading the
bytes back does not recover the record: the serialised root carries the
`xmlns:hr` attribute name twice (once emitted by the serialiser for the
registered, used namespace, once from `build_au_packet`'s literal
`root.set`), so the re-read raises `ParseError` and the round trip fails
with the parsing error instead of producing a record. -/
theorem claim_C7_counterexample :
    calc_flex_range (_ymd2ord 2024 1 1) (_ymd2ord 2024 1 10)
      = some (_ymd2ord 2024 1 8, _ymd2ord 2024 1 12, 2) ∧
    c7cexContract.flex_min_date = some (_ymd2ord 2024 1 8) ∧
    c7cexContract.flex_max_date = some (_ymd2ord 2024 1 12) ∧
    (build_au_packet "t" "u" c7cexContract).map
      (fun p => write_then_parse build_au_root_literal_attrs p "")
      = some (.error ERROR_parsing) :=
  ⟨by decide, by decide, by decide, congrArg some (write_then_parse_hr _ "" rfl)⟩

set_option maxHeartbeats 4000000 in
/-- C7 (corrected): the write-then-parse round trip on a generated update
packet fails for EVERY record the builder accepts: the packet's elements
use the `hr` namespace, whose prefix was registered at module import, so
the serialiser emits an `xmlns:hr` declaration on the root — and
`build_au_packet` has also set the literal `xmlns:hr` attribute there.  The
attribute name is duplicated, the serialised bytes are not well-formed XML,
and re-reading raises `ParseError` (the round trip ends in the parsing
error, never in a recovered record).  `calc_flex_range` itself is a pure
function (equal inputs give equal results). -/
theorem claim_C7_amended (aid sid fn tid ts : String) (sd ee fmn fmx : Int)
    (a : Option Int) :
    (build_au_packet tid ts
        { assignment_id := aid, staffing_supplier_id := sid,
          start_date := some sd, expected_end_date := some ee, actual_end_date := a,
          flex_min_date := some fmn, flex_max_date := some fmx,
          filename := fn }).map
      (fun p => write_then_parse build_au_root_literal_attrs p "")
      = some (.error ERROR_parsing) ∧
    (∀ s2 e2 s3 e3 : Int, s2 = s3 → e2 = e3 →
      calc_flex_range s2 e2 = calc_flex_range s3 e3) := by
  constructor
  · cases a with
    | none => exact congrArg some (write_then_parse_hr _ "" rfl)
    | some x => exact congrArg some (write_then_parse_hr _ "" rfl)
  · intro s2 e2 s3 e3 h1 h2
    rw [h1, h2]

end Claims
example : _ord2ymd 738886 = (2024, 1, 1) := by decide
example : _ymd2ord 9999 12 31 = 3652059 := by decide
example : _ord2ymd 3652059 = (9999, 12, 31) := by decide
example : _ord2ymd 1 = (1, 1, 1) := by decide
example : _ord2ymd 146097 = (400, 12, 31) := by decide
example : _ord2ymd 60 = (1, 3, 1) := by decide

end Pilott
